import Mathlib

/-!
Shallow embedding of the embed data model of `webhook_client` (file
`src/webhook_client/embed.py`), together with the part of the colour
component the embed code imports (`Colour`), which is not present under
`src/` and is therefore modelled from the spec.

Conventions of the embedding:
* Python `str` values are Lean `String`s; `str(x)` applied to a value that
  is already a `str` is the identity, so the stringification steps of the
  source are identities here and are noted in comments where they occur.
* A Python attribute that can hold `EmptyEmbed`, `None` or a `str`
  (the `title`, `url`, `type`, `description` slots) is a `StrVal`.
* An attribute that may be missing from the instance entirely (the
  underscore slots, accessed with `hasattr`/`getattr`/`try`) is an
  `Option`; for the colour slot, which can additionally hold Python
  `None`, a dedicated three-way `ColourSlot` is used.
* Raised exceptions are `Except PyErr` results; code with no failure path
  returns plainly.
* `datetime.datetime` is `PyDateTime`: a wall-clock reading (abstracted to
  an integer number of seconds) plus an optional fixed UTC offset in
  seconds (`none` = naive).  `astimezone()` with no argument on a naive
  value presumes the value is local time and attaches the local offset;
  the local offset is passed as an explicit parameter `L` where needed.
  `isoformat` renders the wall reading followed by the offset suffix
  (`+00:00` for UTC), which is the part of the real format the properties
  here depend on.
-/

/-- Python-level exceptions that the embedded code can raise. -/
inductive PyErr where
  | typeError
  | keyError (key : String)
  | attributeError (attr : String)
  | outOfRange
deriving DecidableEq, Repr

/-- Modelled from the spec: the repository imports `Colour` from
`webhook_client/colour.py`, which is not under `src/`.  Per the spec
(§3 and §4.1), a Color wraps an unsigned integer `value` constrained to
`0..=0xFFFFFF`. -/
structure Colour where
  value : Int
deriving DecidableEq, Repr

/-- Modelled from the spec: `construct(value) -> Color | OutOfRange`
validates `0 <= value <= 0xFFFFFF` (spec §4.1). -/
def Colour.construct (v : Int) : Except PyErr Colour :=
  if 0 ≤ v ∧ v ≤ 0xFFFFFF then .ok ⟨v⟩ else .error .outOfRange

/-- Modelled from the spec: truthiness of a Colour.  The spec's encoding
rule for `toDocument` says the color is "omitted if absent or zero/falsy"
(spec §4.2), so a Colour is falsy exactly when its value is zero. -/
def Colour.truthy (c : Colour) : Bool := c.value ≠ 0

/-- Value of a slot that can hold the `EmptyEmbed` sentinel, Python `None`,
or a string (`title`, `url`, `type`, `description`). -/
inductive StrVal where
  | empty
  | pynone
  | str (s : String)
deriving DecidableEq, Repr

/-- Python truthiness of a `StrVal`: `EmptyEmbed.__bool__` returns `False`,
`None` is falsy, a string is truthy iff non-empty. -/
def StrVal.truthy : StrVal → Bool
  | .empty => false
  | .pynone => false
  | .str s => s ≠ ""

/-- Python `len()` of a `StrVal`: `_EmptyEmbed.__len__` returns `0`, a
string has its length, and `len(None)` raises `TypeError`. -/
def StrVal.pyLen : StrVal → Except PyErr Nat
  | .empty => .ok 0
  | .pynone => .error .typeError
  | .str s => .ok s.length

/-- The emission test `if self.x: result['x'] = self.x` used by `to_dict`
for `type`, `description`, `url` and `title`: the key is present in the
output exactly when the slot value is truthy. -/
def StrVal.emit : StrVal → Option String
  | .str s => if s = "" then none else some s
  | _ => none

/-- The `_colour` slot: missing from the instance (`from_dict` without a
`color` key), Python `None` (the colour setter on any non-int, non-Colour
input such as the `EmptyEmbed` default), or a `Colour`. -/
inductive ColourSlot where
  | unset
  | pynone
  | col (c : Colour)
deriving DecidableEq, Repr

/-- A `datetime.datetime`: wall-clock reading (seconds, abstract) and an
optional fixed UTC offset in seconds (`none` = naive). -/
structure PyDateTime where
  wall : Int
  tz : Option Int
deriving DecidableEq, Repr

/-- Offset suffix of `datetime.isoformat`: `+00:00` for UTC, `+HH:MM` or
`-HH:MM` otherwise, nothing for a naive value.  Only the UTC case is
reachable from `to_dict`. -/
def offsetSuffix : Option Int → String
  | none => ""
  | some k =>
    if k = 0 then "+00:00"
    else (if 0 ≤ k then "+" else "-")
      ++ toString (k.natAbs / 3600) ++ ":" ++ toString (k.natAbs % 3600 / 60)

/-- `datetime.isoformat`, abstracted to the wall reading followed by the
offset suffix. -/
def PyDateTime.isoformat (d : PyDateTime) : String :=
  toString d.wall ++ offsetSuffix d.tz

/-- The footer record built by `set_footer` / ingested by `from_dict`:
`text` and `icon_url` keys, each possibly absent. -/
structure EmbedFooter where
  text : Option String := none
  icon_url : Option String := none
deriving DecidableEq, Repr

/-- The image/thumbnail/video record: `set_image`/`set_thumbnail` store
exactly `{'url': str(url)}`. -/
structure EmbedMedia where
  url : String
deriving DecidableEq, Repr

/-- The author record built by `set_author` / ingested by `from_dict`.
`name` is an `Option` because an ingested document's author dict need not
contain it (nested shapes are not validated on ingest). -/
structure EmbedAuthor where
  name : Option String := none
  url : Option String := none
  icon_url : Option String := none
deriving DecidableEq, Repr

/-- The provider record (only ever ingested, never built by a setter). -/
structure EmbedProvider where
  name : Option String := none
  url : Option String := none
deriving DecidableEq, Repr

/-- One member of the `fields` list: `add_field` stores
`{'inline': inline, 'name': str(name), 'value': str(value)}`. -/
structure EmbedField where
  name : String
  value : String
  inline : Bool
deriving DecidableEq, Repr

/-- State of an `Embed` instance: the thirteen `__slots__` of the class.
The underscore slots may be missing from the instance and are `Option`s
(`ColourSlot` for `_colour`, which distinguishes missing from `None`). -/
structure Embed where
  title : StrVal
  url : StrVal
  type : StrVal
  description : StrVal
  _colour : ColourSlot
  _timestamp : Option PyDateTime
  _footer : Option EmbedFooter
  _image : Option EmbedMedia
  _thumbnail : Option EmbedMedia
  _video : Option EmbedMedia
  _provider : Option EmbedProvider
  _author : Option EmbedAuthor
  _fields : Option (List EmbedField)
deriving DecidableEq, Repr

/-- The wire document consumed by `from_dict` and produced by `to_dict`:
a dict in Discord's embed shape, each key independently present or
absent.  Dict equality in Python ignores key order, so a record of
`Option`s is the faithful quotient. -/
structure Doc where
  title : Option String := none
  type : Option String := none
  description : Option String := none
  url : Option String := none
  timestamp : Option String := none
  color : Option Int := none
  footer : Option EmbedFooter := none
  image : Option EmbedMedia := none
  thumbnail : Option EmbedMedia := none
  video : Option EmbedMedia := none
  provider : Option EmbedProvider := none
  author : Option EmbedAuthor := none
  fields : Option (List EmbedField) := none
deriving DecidableEq, Repr

/-- The constructor argument for `colour`/`color`: the `EmptyEmbed`
default, an `int`, or a `Colour` instance. -/
inductive CtorColour where
  | empty
  | int (v : Int)
  | col (c : Colour)
deriving DecidableEq, Repr

/-- Python truthiness of a constructor colour argument: `EmptyEmbed` is
falsy, an int is truthy iff nonzero, a `Colour` iff its value is nonzero
(see `Colour.truthy`). -/
def CtorColour.truthy : CtorColour → Bool
  | .empty => false
  | .int v => v ≠ 0
  | .col c => c.truthy

/-- A constructor colour argument is well formed when any `Colour` it
carries was produced by the validating constructors, i.e. is in range
(spec §4.1: a Colour cannot be constructed out of range). -/
def CtorColour.wf : CtorColour → Prop
  | .col c => 0 ≤ c.value ∧ c.value ≤ 0xFFFFFF
  | _ => True

/-- Keyword arguments of `Embed.__init__`, with the source's defaults. -/
structure CtorArgs where
  colour : CtorColour := .empty
  color : CtorColour := .empty
  title : Option String := none
  type : String := "rich"
  url : Option String := none
  description : Option String := none
  timestamp : Option PyDateTime := none
deriving DecidableEq, Repr

/-- Truthiness applied to an optional string argument, as in
`if text: ... str(text)` (stringification is the identity on strings). -/
def truthyOpt : Option String → Option String
  | none => none
  | some s => if s = "" then none else some s

/-- Body of `Embed.__init__` except for the colour dispatch (see `init`).
`title`/`url`/`description` are stringified when not `EmptyEmbed`
(identity on strings).  The timestamp argument, when truthy (datetimes
always are), goes through the timestamp property setter, which calls
`astimezone()` on a naive value: the local offset `L` is attached,
leaving the wall reading unchanged. -/
def Embed.initBase (L : Int) (a : CtorArgs) (colourSlot : ColourSlot) : Embed :=
  { title := match a.title with | none => .empty | some s => .str s
    url := match a.url with | none => .empty | some s => .str s
    type := .str a.type
    description := match a.description with | none => .empty | some s => .str s
    _colour := colourSlot
    _timestamp :=
      match a.timestamp with
      | none => none
      | some t => some (if t.tz = none then { t with tz := some L } else t)
    _footer := none
    _image := none
    _thumbnail := none
    _video := none
    _provider := none
    _author := none
    _fields := none }

/-- `Embed.__init__`: the colour dispatch `self.colour = colour if colour
else color` routes through the colour property setter — a `Colour` is
stored as is, an `int` is passed to `Colour(value=...)` (which, per the
spec-modelled `Colour`, raises `OutOfRange` when out of range), and
anything else (the `EmptyEmbed` default) stores `None` — and the rest of
the constructor body is `initBase`. -/
def Embed.init (L : Int) (a : CtorArgs) : Except PyErr Embed :=
  match (if a.colour.truthy then a.colour else a.color) with
  | .col c => .ok (Embed.initBase L a (.col c))
  | .int v => (Colour.construct v).map fun c => Embed.initBase L a (.col c)
  | .empty => .ok (Embed.initBase L a .pynone)

/-- Body of `Embed.from_dict` except for the colour dispatch (see
`from_dict`).  `title`/`type`/`description`/`url` come from
`data.get(key, None)`; the subsequent `if self.x: self.x = str(self.x)`
is the identity on the string case modelled here.  The `color` key is fed
to `Colour(value=...)` inside a `try`/`except KeyError`: a missing key
leaves the `_colour` slot unset, while any failure of the spec-modelled
`Colour` constructor itself is not a `KeyError` and propagates.  The
seven nested objects are copied through verbatim.  The `timestamp` key is
never read, so `_timestamp` is always left unset. -/
def Embed.fromDictBase (d : Doc) (cs : ColourSlot) : Embed :=
  { title := match d.title with | none => .pynone | some s => .str s
    type := match d.type with | none => .pynone | some s => .str s
    description := match d.description with | none => .pynone | some s => .str s
    url := match d.url with | none => .pynone | some s => .str s
    _colour := cs
    _timestamp := none
    _footer := d.footer
    _image := d.image
    _thumbnail := d.thumbnail
    _video := d.video
    _provider := d.provider
    _author := d.author
    _fields := d.fields }

/-- The `try: self._colour = Colour(value=data['color']) except KeyError`
dispatch of `from_dict` (see `fromDictBase` for the rest of its body). -/
def Embed.from_dict (d : Doc) : Except PyErr Embed :=
  match d.color with
  | none => .ok (Embed.fromDictBase d .unset)
  | some v => (Colour.construct v).map fun c => Embed.fromDictBase d (.col c)

/-- `Embed.to_dict`.  The underscore slots that are set are copied into
the result under their names without the underscore; `colour` is then
popped and re-emitted as `color` holding the integer value when the
Colour is truthy; `timestamp` is popped and re-emitted as an ISO-8601
string, converted to UTC when aware (`astimezone(utc)`: the offset is
subtracted from the wall reading) and stamped UTC when naive
(`replace(tzinfo=utc)`: the wall reading is kept); datetimes are always
truthy, so a set timestamp is always emitted.  Finally `type`,
`description`, `url`, `title` are emitted iff truthy. -/
def Embed.to_dict (e : Embed) : Doc :=
  { footer := e._footer
    image := e._image
    thumbnail := e._thumbnail
    video := e._video
    provider := e._provider
    author := e._author
    fields := e._fields
    color :=
      match e._colour with
      | .col c => if c.truthy then some c.value else none
      | _ => none
    timestamp :=
      match e._timestamp with
      | none => none
      | some t =>
        match t.tz with
        | some off => some (PyDateTime.isoformat ⟨t.wall - off, some 0⟩)
        | none => some (PyDateTime.isoformat ⟨t.wall, some 0⟩)
    type := e.type.emit
    description := e.description.emit
    url := e.url.emit
    title := e.title.emit }

/-- `Embed.copy`: `from_dict(to_dict())`. -/
def Embed.copy (e : Embed) : Except PyErr Embed :=
  Embed.from_dict e.to_dict

/-- `Embed.set_footer`: rebuilds `_footer` from scratch; `text` and
`icon_url` each populate their key only when truthy (stringification is
the identity on strings). -/
def Embed.set_footer (e : Embed) (text : Option String) (icon_url : Option String) : Embed :=
  { e with _footer := some { text := truthyOpt text, icon_url := truthyOpt icon_url } }

/-- `Embed.set_image`: a falsy url deletes `_image` (the `AttributeError`
of deleting an unset slot is swallowed), a truthy url stores
`{'url': str(url)}`. -/
def Embed.set_image (e : Embed) (url : Option String) : Embed :=
  { e with _image := (truthyOpt url).map fun s => { url := s } }

/-- `Embed.set_thumbnail`: same shape as `set_image`, on `_thumbnail`. -/
def Embed.set_thumbnail (e : Embed) (url : Option String) : Embed :=
  { e with _thumbnail := (truthyOpt url).map fun s => { url := s } }

/-- `Embed.set_author`: `name` is required and always stored (stringified:
identity here); `url` and `icon_url` are stored only when truthy. -/
def Embed.set_author (e : Embed) (name : String) (url : Option String)
    (icon_url : Option String) : Embed :=
  { e with _author := some { name := some name, url := truthyOpt url, icon_url := truthyOpt icon_url } }

/-- `Embed.add_field`: appends `{'inline': inline, 'name': str(name),
'value': str(value)}` to `_fields`, creating the list on first use (the
`AttributeError` path of the source's `try: append`). -/
def Embed.add_field (e : Embed) (name : String) (value : String) (inline : Bool) : Embed :=
  { e with _fields := some (e._fields.getD [] ++ [{ name := name, value := value, inline := inline }]) }

/-- `Embed.__len__`: `len(self.title) + len(self.description)` (a
`TypeError` when either slot holds `None`), plus name and value lengths
over `getattr(self, '_fields', [])`, plus the footer text length with
`AttributeError`/`KeyError` swallowed, plus `len(author['name'])` where
only the `AttributeError` of a missing `_author` slot is caught — a
missing `'name'` key raises `KeyError`. -/
def Embed.len (e : Embed) : Except PyErr Nat := do
  let t ← e.title.pyLen
  let d ← e.description.pyLen
  let base := t + d +
    (e._fields.getD []).foldl (fun acc f => acc + f.name.length + f.value.length) 0
  let base :=
    match e._footer with
    | some f => match f.text with | some s => base + s.length | none => base
    | none => base
  match e._author with
  | none => .ok base
  | some a =>
    match a.name with
    | some n => .ok (base + n.length)
    | none => .error (.keyError "name")

/-- `Embed.__bool__`: evaluates the tuple `(self.title, self.url,
self.description, self.colour, self.fields, self.timestamp, self.author,
self.thumbnail, self.footer, self.image, self.provider, self.video)`
before `any` runs.  `title`, `url`, `description` are slots and `colour`
is a property, so those four lookups succeed on every instance; but the
class defines no attribute or property named `fields` (only the `_fields`
slot is in `__slots__`), so the fifth lookup raises `AttributeError` on
every instance and `any` is never reached. -/
def Embed.bool (_e : Embed) : Except PyErr Bool :=
  .error (.attributeError "fields")

/-- One call to a documented fluent setter (spec §4.2: `setFooter`,
`setImage`, `setThumbnail`, `setAuthor`, `addField`). -/
inductive BuildOp where
  | footer (text icon_url : Option String)
  | image (url : Option String)
  | thumbnail (url : Option String)
  | author (name : String) (url icon_url : Option String)
  | field (name value : String) (inline : Bool)
deriving DecidableEq, Repr

/-- Run one fluent setter call on an embed. -/
def Embed.apply (e : Embed) : BuildOp → Embed
  | .footer t i => e.set_footer t i
  | .image u => e.set_image u
  | .thumbnail u => e.set_thumbnail u
  | .author n u i => e.set_author n u i
  | .field n v i => e.add_field n v i

/-- An embed built purely from the documented constructor and setters:
`Embed(**a)` followed by a chain of fluent calls, under local UTC offset
`L`. -/
def Embed.build (L : Int) (a : CtorArgs) (ops : List BuildOp) : Except PyErr Embed :=
  (Embed.init L a).map fun e0 => ops.foldl Embed.apply e0

deriving instance DecidableEq for Except

/-- The embed produced by `Embed()` with no options, under any local
offset: sentinel-empty text slots, default type `rich`, colour slot
holding Python `None`, everything else unset. -/
def emptyBuilt : Embed :=
  { title := .empty
    url := .empty
    type := .str "rich"
    description := .empty
    _colour := .pynone
    _timestamp := none
    _footer := none
    _image := none
    _thumbnail := none
    _video := none
    _provider := none
    _author := none
    _fields := none }

/-- Whether a fluent call writes the `_footer` slot. -/
def BuildOp.touchesFooter : BuildOp → Bool
  | .footer _ _ => true
  | _ => false

/-- Whether a fluent call writes (or clears) the `_image` slot. -/
def BuildOp.touchesImage : BuildOp → Bool
  | .image _ => true
  | _ => false

/-- Whether a fluent call writes (or clears) the `_thumbnail` slot. -/
def BuildOp.touchesThumbnail : BuildOp → Bool
  | .thumbnail _ => true
  | _ => false

/-- Whether a fluent call writes the `_author` slot. -/
def BuildOp.touchesAuthor : BuildOp → Bool
  | .author _ _ _ => true
  | _ => false

/-- Whether a fluent call appends to the `_fields` slot. -/
def BuildOp.touchesFields : BuildOp → Bool
  | .field _ _ _ => true
  | _ => false

/-- Character count of a text slot as the spec's length formula counts it:
absent (sentinel or never set) contributes zero. -/
def charLen : StrVal → Nat
  | .str s => s.length
  | _ => 0

/-- The additive length formula stated by the spec (§3): title plus
description plus, over all fields, name plus value, plus footer text when
present, plus author name when present. -/
def specCharLen (e : Embed) : Nat :=
  charLen e.title + charLen e.description
    + (e._fields.getD []).foldl (fun acc f => acc + f.name.length + f.value.length) 0
    + (match e._footer with
       | some f => (f.text.map String.length).getD 0
       | none => 0)
    + (match e._author with
       | some a => (a.name.map String.length).getD 0
       | none => 0)

/-- The shape invariant that keeps `__len__` total: `title` and
`description` never hold Python `None`, and a present author record has a
`name` key.  Every embed reachable from the constructor and the fluent
setters satisfies it. -/
def lenOK (e : Embed) : Prop :=
  e.title ≠ .pynone ∧ e.description ≠ .pynone ∧
    ∀ a, e._author = some a → a.name.isSome

/-- Every Colour held in the colour slot is in range (true of embeds
built from in-range colour arguments, and what `to_dict` needs for its
emitted color value to be re-parseable). -/
def colourOK (e : Embed) : Prop :=
  ∀ c, e._colour = .col c → 0 ≤ c.value ∧ c.value ≤ 0xFFFFFF

/-- The embed built by
`Embed(title='Hello, world.').add_field(name='Field #1', value='x')`. -/
def c2e : Embed :=
  { emptyBuilt with
    title := .str "Hello, world."
    _fields := some [⟨"Field #1", "x", true⟩] }

/-- An ingested document whose `color` value is out of range (one past
`0xFFFFFF`), hence unparsable by the spec-modelled `Colour`. -/
def c4doc : Doc := { color := some 16777216 }

/-- The embed built by `Embed(timestamp=t)` for an aware UTC instant `t`
at wall reading 0. -/
def c1e : Embed := { emptyBuilt with _timestamp := some ⟨0, some 0⟩ }

/-- The result of `c1e.copy()`: `from_dict` never reads the `timestamp`
key, so the copy has no timestamp. -/
def c1rt : Embed := Embed.fromDictBase (Embed.to_dict c1e) .unset

/-- The embed built by
`Embed(title='Hello', colour=5).add_field(name='f', value='v')`. -/
def c1we : Embed :=
  { emptyBuilt with
    title := .str "Hello"
    _colour := .col ⟨5⟩
    _fields := some [⟨"f", "v", true⟩] }

/-- The embed built by `Embed()` then assigned a timestamp slot holding
the aware instant 0 at local offset 60 (what building with the naive
instant 0 under local offset 60 stores). -/
def c3e : Embed := { emptyBuilt with _timestamp := some ⟨0, some 60⟩ }

/-- The embed built by `Embed(title='')`: the title slot holds the empty
string, explicitly set. -/
def c5e : Embed := { emptyBuilt with title := .str "" }

/-- The embed built by `Embed(title='T', url='')`. -/
def c5e2 : Embed := { emptyBuilt with title := .str "T", url := .str "" }

/-- The embed built by
`Embed(title='ab', description='cd').add_field(name='e', value='fgh')`. -/
def c9e : Embed :=
  { emptyBuilt with
    title := .str "ab"
    description := .str "cd"
    _fields := some [⟨"e", "fgh", true⟩] }

/-- No fluent setter writes the text slots, the colour slot, the timestamp
slot, or the video/provider slots: one `apply` step preserves them all. -/
theorem apply_slots (e : Embed) (op : BuildOp) :
    (Embed.apply e op).title = e.title ∧
    (Embed.apply e op).url = e.url ∧
    (Embed.apply e op).type = e.type ∧
    (Embed.apply e op).description = e.description ∧
    (Embed.apply e op)._colour = e._colour ∧
    (Embed.apply e op)._timestamp = e._timestamp ∧
    (Embed.apply e op)._video = e._video ∧
    (Embed.apply e op)._provider = e._provider := by
  cases op <;> exact ⟨rfl, rfl, rfl, rfl, rfl, rfl, rfl, rfl⟩

/-- Chained form of `apply_slots` over a whole list of fluent calls. -/
theorem foldl_slots (ops : List BuildOp) (e : Embed) :
    (ops.foldl Embed.apply e).title = e.title ∧
    (ops.foldl Embed.apply e).url = e.url ∧
    (ops.foldl Embed.apply e).type = e.type ∧
    (ops.foldl Embed.apply e).description = e.description ∧
    (ops.foldl Embed.apply e)._colour = e._colour ∧
    (ops.foldl Embed.apply e)._timestamp = e._timestamp ∧
    (ops.foldl Embed.apply e)._video = e._video ∧
    (ops.foldl Embed.apply e)._provider = e._provider := by
  induction ops generalizing e with
  | nil => exact ⟨rfl, rfl, rfl, rfl, rfl, rfl, rfl, rfl⟩
  | cons op ops ih =>
    rw [List.foldl_cons]
    have h1 := apply_slots e op
    have h2 := ih (Embed.apply e op)
    exact ⟨h2.1.trans h1.1, h2.2.1.trans h1.2.1, h2.2.2.1.trans h1.2.2.1,
      h2.2.2.2.1.trans h1.2.2.2.1, h2.2.2.2.2.1.trans h1.2.2.2.2.1,
      h2.2.2.2.2.2.1.trans h1.2.2.2.2.2.1, h2.2.2.2.2.2.2.1.trans h1.2.2.2.2.2.2.1,
      h2.2.2.2.2.2.2.2.trans h1.2.2.2.2.2.2.2⟩

/-- A step that is not a `setFooter` call leaves `_footer` unchanged. -/
theorem apply_footer_of (e : Embed) (op : BuildOp) (h : op.touchesFooter = false) :
    (Embed.apply e op)._footer = e._footer := by
  cases op with
  | footer t i => simp [BuildOp.touchesFooter] at h
  | image u => rfl
  | thumbnail u => rfl
  | author n u i => rfl
  | field n v i => rfl

/-- A step that is not a `setImage` call leaves `_image` unchanged. -/
theorem apply_image_of (e : Embed) (op : BuildOp) (h : op.touchesImage = false) :
    (Embed.apply e op)._image = e._image := by
  cases op with
  | image u => simp [BuildOp.touchesImage] at h
  | thumbnail u => rfl
  | footer t i => rfl
  | author n u i => rfl
  | field n v i => rfl

/-- A step that is not a `setThumbnail` call leaves `_thumbnail` unchanged. -/
theorem apply_thumbnail_of (e : Embed) (op : BuildOp) (h : op.touchesThumbnail = false) :
    (Embed.apply e op)._thumbnail = e._thumbnail := by
  cases op with
  | thumbnail u => simp [BuildOp.touchesThumbnail] at h
  | image u => rfl
  | footer t i => rfl
  | author n u i => rfl
  | field n v i => rfl

/-- A step that is not a `setAuthor` call leaves `_author` unchanged. -/
theorem apply_author_of (e : Embed) (op : BuildOp) (h : op.touchesAuthor = false) :
    (Embed.apply e op)._author = e._author := by
  cases op with
  | author n u i => simp [BuildOp.touchesAuthor] at h
  | image u => rfl
  | thumbnail u => rfl
  | footer t i => rfl
  | field n v i => rfl

/-- A step that is not an `addField` call leaves `_fields` unchanged. -/
theorem apply_fields_of (e : Embed) (op : BuildOp) (h : op.touchesFields = false) :
    (Embed.apply e op)._fields = e._fields := by
  cases op with
  | field n v i => simp [BuildOp.touchesFields] at h
  | image u => rfl
  | thumbnail u => rfl
  | footer t i => rfl
  | author n u i => rfl

/-- A chain with no `setFooter` call preserves `_footer`. -/
theorem foldl_footer_of (ops : List BuildOp) (e : Embed)
    (h : ∀ op ∈ ops, op.touchesFooter = false) :
    (ops.foldl Embed.apply e)._footer = e._footer := by
  induction ops generalizing e with
  | nil => rfl
  | cons op ops ih =>
    rw [List.foldl_cons]
    exact (ih (Embed.apply e op) fun o ho => h o (List.mem_cons_of_mem op ho)).trans
      (apply_footer_of e op (h op (List.mem_cons_self op ops)))

/-- A chain with no `setImage` call preserves `_image`. -/
theorem foldl_image_of (ops : List BuildOp) (e : Embed)
    (h : ∀ op ∈ ops, op.touchesImage = false) :
    (ops.foldl Embed.apply e)._image = e._image := by
  induction ops generalizing e with
  | nil => rfl
  | cons op ops ih =>
    rw [List.foldl_cons]
    exact (ih (Embed.apply e op) fun o ho => h o (List.mem_cons_of_mem op ho)).trans
      (apply_image_of e op (h op (List.mem_cons_self op ops)))

/-- A chain with no `setThumbnail` call preserves `_thumbnail`. -/
theorem foldl_thumbnail_of (ops : List BuildOp) (e : Embed)
    (h : ∀ op ∈ ops, op.touchesThumbnail = false) :
    (ops.foldl Embed.apply e)._thumbnail = e._thumbnail := by
  induction ops generalizing e with
  | nil => rfl
  | cons op ops ih =>
    rw [List.foldl_cons]
    exact (ih (Embed.apply e op) fun o ho => h o (List.mem_cons_of_mem op ho)).trans
      (apply_thumbnail_of e op (h op (List.mem_cons_self op ops)))

/-- A chain with no `setAuthor` call preserves `_author`. -/
theorem foldl_author_of (ops : List BuildOp) (e : Embed)
    (h : ∀ op ∈ ops, op.touchesAuthor = false) :
    (ops.foldl Embed.apply e)._author = e._author := by
  induction ops generalizing e with
  | nil => rfl
  | cons op ops ih =>
    rw [List.foldl_cons]
    exact (ih (Embed.apply e op) fun o ho => h o (List.mem_cons_of_mem op ho)).trans
      (apply_author_of e op (h op (List.mem_cons_self op ops)))

/-- A chain with no `addField` call preserves `_fields`. -/
theorem foldl_fields_of (ops : List BuildOp) (e : Embed)
    (h : ∀ op ∈ ops, op.touchesFields = false) :
    (ops.foldl Embed.apply e)._fields = e._fields := by
  induction ops generalizing e with
  | nil => rfl
  | cons op ops ih =>
    rw [List.foldl_cons]
    exact (ih (Embed.apply e op) fun o ho => h o (List.mem_cons_of_mem op ho)).trans
      (apply_fields_of e op (h op (List.mem_cons_self op ops)))

/-- A successful `build` factors into a successful `__init__` followed by
the fold of the fluent calls. -/
theorem build_inv (L : Int) (a : CtorArgs) (ops : List BuildOp) (e : Embed)
    (hb : Embed.build L a ops = .ok e) :
    ∃ e0, Embed.init L a = .ok e0 ∧ e = ops.foldl Embed.apply e0 := by
  unfold Embed.build at hb
  cases hi : Embed.init L a with
  | ok e0 =>
    rw [hi] at hb
    exact ⟨e0, rfl, (Except.ok.injEq _ _ ▸ hb).symm⟩
  | error err =>
    rw [hi] at hb
    exact absurd hb (by simp [Except.map])

/-- Inversion for the spec-modelled Colour constructor. -/
theorem construct_ok (v : Int) (c : Colour) :
    Colour.construct v = .ok c ↔ (0 ≤ v ∧ v ≤ 0xFFFFFF) ∧ c = ⟨v⟩ := by
  unfold Colour.construct
  split
  · rename_i h
    simp [h, eq_comm]
  · rename_i h
    simp [h]

/-- A successful `__init__` produces `initBase` at some colour slot. -/
theorem init_ok_shape (L : Int) (a : CtorArgs) (e0 : Embed)
    (h : Embed.init L a = .ok e0) : ∃ cs, e0 = Embed.initBase L a cs := by
  unfold Embed.init at h
  split at h
  · injection h with h2
    exact ⟨_, h2.symm⟩
  · rename_i v hch
    cases hcv : Colour.construct v <;> rw [hcv] at h <;> simp [Except.map] at h
    exact ⟨_, h.symm⟩
  · injection h with h2
    exact ⟨_, h2.symm⟩

/-- Any Colour stored by a successful `__init__` from well-formed colour
arguments is in range. -/
theorem init_colour_wf (L : Int) (a : CtorArgs) (e0 : Embed)
    (hwf1 : a.colour.wf) (hwf2 : a.color.wf) (h : Embed.init L a = .ok e0) :
    ∀ c, e0._colour = .col c → 0 ≤ c.value ∧ c.value ≤ 0xFFFFFF := by
  unfold Embed.init at h
  have hwfc : (if a.colour.truthy then a.colour else a.color).wf := by
    split <;> assumption
  split at h
  · rename_i c2 hch
    rw [hch] at hwfc
    injection h with h2
    intro c hc
    rw [← h2] at hc
    simp only [Embed.initBase] at hc
    cases hc
    exact hwfc
  · rename_i v hch
    cases hcv : Colour.construct v <;> rw [hcv] at h <;> simp [Except.map] at h
    rename_i c3
    intro c hc
    rw [← h] at hc
    simp only [Embed.initBase] at hc
    obtain ⟨hrange, hc3⟩ := (construct_ok v c3).mp hcv
    cases hc
    exact hc3 ▸ hrange
  · injection h with h2
    intro c hc
    rw [← h2] at hc
    simp [Embed.initBase] at hc

/-- `__init__` with both colour options left at the `EmptyEmbed` default
stores Python `None` in the colour slot. -/
theorem init_colour_empty (L : Int) (a : CtorArgs) (e0 : Embed)
    (h1 : a.colour = .empty) (h2 : a.color = .empty)
    (h : Embed.init L a = .ok e0) : e0._colour = .pynone := by
  have h3 : Embed.init L a = .ok (Embed.initBase L a .pynone) := by
    unfold Embed.init
    rw [h1, h2]
    rfl
  rw [h3] at h
  injection h with h2a
  rw [← h2a]
  rfl

/-- A successful `from_dict` produces `fromDictBase` at some colour slot. -/
theorem from_dict_ok_shape (d : Doc) (e : Embed)
    (h : Embed.from_dict d = .ok e) : ∃ cs, e = Embed.fromDictBase d cs := by
  unfold Embed.from_dict at h
  split at h
  · injection h with h2
    exact ⟨_, h2.symm⟩
  · rename_i v hdc
    cases hcv : Colour.construct v <;> rw [hcv] at h <;> simp [Except.map] at h
    exact ⟨_, h.symm⟩

/-- Ingesting the emission of a text slot and emitting again is the
identity on the emitted document value. -/
theorem emit_rt (sv : StrVal) :
    StrVal.emit (match sv.emit with | none => StrVal.pynone | some s => .str s)
      = sv.emit := by
  rcases sv with _ | _ | s
  · rfl
  · rfl
  · by_cases hs : s = "" <;> simp [StrVal.emit, hs]

theorem except_bind_ok {α β : Type} (x : α) (f : α → Except PyErr β) :
    (Except.ok x >>= f) = f x := rfl

theorem except_bind_error {α β : Type} (err : PyErr) (f : α → Except PyErr β) :
    ((Except.error err : Except PyErr α) >>= f) = Except.error err := rfl

/-- C2: the truthiness test of an Embed does not return a boolean at all:
`__bool__` evaluates `self.fields`, an attribute the class does not
define, so `bool(embed)` raises `AttributeError` on every instance —
shown here both for the embed built with no options and for a visibly
non-empty embed with a title and a field. -/
theorem c2_truthiness_raises :
    Embed.build 0 {} [] = Except.ok emptyBuilt ∧
    Embed.bool emptyBuilt = Except.error (PyErr.attributeError "fields") ∧
    Embed.build 0 { title := some "Hello, world." } [.field "Field #1" "x" true]
      = Except.ok c2e ∧
    Embed.bool c2e = Except.error (PyErr.attributeError "fields") :=
  ⟨rfl, rfl, rfl, rfl⟩

/-- C4 (counterexample): feeding `from_dict` a document whose `color`
value cannot be parsed (out of range for the spec-modelled `Colour`) does
not silently construct an Embed: the error propagates to the caller,
because the source catches only `KeyError`. -/
theorem c4_color_error_propagates :
    Embed.from_dict c4doc = Except.error PyErr.outOfRange := by decide

/-- C4 (amended): only the missing-key case is swallowed — a document
without a `color` key yields an Embed whose colour slot stays absent,
while a present-but-unparsable `color` value raises `OutOfRange` to the
caller. -/
theorem c4_color_amended (d : Doc) :
    (d.color = none →
      Embed.from_dict d = .ok (Embed.fromDictBase d .unset) ∧
        (Embed.fromDictBase d .unset)._colour = .unset) ∧
    (∀ v, d.color = some v → ¬(0 ≤ v ∧ v ≤ 0xFFFFFF) →
      Embed.from_dict d = .error PyErr.outOfRange) := by
  constructor
  · intro h
    refine ⟨?_, rfl⟩
    unfold Embed.from_dict
    rw [h]
  · intro v hv hrange
    simp [Embed.from_dict, hv, Colour.construct, hrange, Except.map]

/-- Witness for C4 (amended) at concrete documents. -/
theorem c4_color_amended_witness :
    Embed.from_dict { title := some "t" }
        = .ok (Embed.fromDictBase { title := some "t" } .unset) ∧
    Embed.from_dict { title := some "t", color := some 99999999 }
        = .error PyErr.outOfRange :=
  ⟨((c4_color_amended { title := some "t" }).1 rfl).1,
   (c4_color_amended { title := some "t", color := some 99999999 }).2
     99999999 rfl (by decide)⟩

/-- C7: `set_image` with a falsy url (Python `None` or the empty string)
removes the `_image` slot — in particular, setting a real url and then an
empty one leaves no `image` key in `to_dict`'s output — and a truthy url
stores `{'url': str(url)}`; `set_thumbnail` behaves identically on
`_thumbnail`. -/
theorem c7_clear_image (e : Embed) (s : String) :
    (Embed.to_dict ((e.set_image (some s)).set_image (some ""))).image = none ∧
    (e.set_image none)._image = none ∧
    (e.set_image (some ""))._image = none ∧
    (s ≠ "" → (e.set_image (some s))._image = some { url := s }) ∧
    (Embed.to_dict ((e.set_thumbnail (some s)).set_thumbnail (some ""))).thumbnail = none ∧
    (e.set_thumbnail none)._thumbnail = none ∧
    (e.set_thumbnail (some ""))._thumbnail = none ∧
    (s ≠ "" → (e.set_thumbnail (some s))._thumbnail = some { url := s }) := by
  refine ⟨rfl, rfl, rfl, fun h => ?_, rfl, rfl, rfl, fun h => ?_⟩
  · simp [Embed.set_image, truthyOpt, h]
  · simp [Embed.set_thumbnail, truthyOpt, h]

/-- Witness for C7 at a concrete embed and url. -/
theorem c7_clear_image_witness :
    (emptyBuilt.set_image (some "x"))._image = some { url := "x" } ∧
    (emptyBuilt.set_thumbnail (some "x"))._thumbnail = some { url := "x" } :=
  ⟨(c7_clear_image emptyBuilt "x").2.2.2.1 (by decide),
   (c7_clear_image emptyBuilt "x").2.2.2.2.2.2.2 (by decide)⟩

/-- Appending fields one call at a time onto an embed whose `_fields`
list exists extends it on the right, in call order. -/
theorem foldl_add_field_some (calls : List EmbedField) (e : Embed) (l : List EmbedField)
    (h : e._fields = some l) :
    (calls.foldl (fun acc c => acc.add_field c.name c.value c.inline) e)._fields
      = some (l ++ calls) := by
  induction calls generalizing e l with
  | nil => simpa using h
  | cons c cs ih =>
    rw [List.foldl_cons]
    have h2 : (e.add_field c.name c.value c.inline)._fields = some (l ++ [c]) := by
      simp [Embed.add_field, h]
    rw [ih _ _ h2]
    simp

/-- C8: a sequence of `add_field` calls appends exactly one stored field
per call, in call order; on an embed with no prior fields, a non-empty
sequence of calls makes `to_dict` emit exactly the called-for list. -/
theorem c8_field_order (e : Embed) (calls : List EmbedField) :
    (calls.foldl (fun acc c => acc.add_field c.name c.value c.inline) e)._fields.getD []
      = e._fields.getD [] ++ calls ∧
    (e._fields = none → ∀ c cs, calls = c :: cs →
      (Embed.to_dict (calls.foldl (fun acc c => acc.add_field c.name c.value c.inline) e)).fields
        = some calls) := by
  constructor
  · cases hf : e._fields with
    | some l =>
      rw [foldl_add_field_some calls e l hf]
      simp [hf]
    | none =>
      cases calls with
      | nil => simp [hf]
      | cons c cs =>
        rw [List.foldl_cons]
        have h2 : (e.add_field c.name c.value c.inline)._fields = some [c] := by
          simp [Embed.add_field, hf]
        rw [foldl_add_field_some cs _ [c] h2]
        simp [hf]
  · intro hf c cs hc
    subst hc
    rw [List.foldl_cons]
    have h2 : (e.add_field c.name c.value c.inline)._fields = some [c] := by
      simp [Embed.add_field, hf]
    have h3 := foldl_add_field_some cs _ [c] h2
    simp [Embed.to_dict, h3]

/-- Witness for C8: two concrete `add_field` calls on the option-free
embed appear in order in the serialized fields list. -/
theorem c8_field_order_witness :
    (Embed.to_dict (([⟨"a", "b", true⟩, ⟨"c", "d", false⟩] : List EmbedField).foldl
        (fun acc c => acc.add_field c.name c.value c.inline) emptyBuilt)).fields
      = some [⟨"a", "b", true⟩, ⟨"c", "d", false⟩] :=
  (c8_field_order emptyBuilt _).2 rfl ⟨"a", "b", true⟩ [⟨"c", "d", false⟩] rfl

/-- C10: an Embed ingested from a document without a `title` key (and
likewise one without a `description` key) stores Python `None` in that
slot instead of the empty sentinel, so a subsequent `len()` raises
`TypeError` instead of returning a count. -/
theorem c10_from_dict_len_fails (d : Doc) (e : Embed)
    (h : Embed.from_dict d = .ok e) :
    (d.title = none →
      e.title = .pynone ∧ Embed.len e = .error PyErr.typeError) ∧
    (d.description = none →
      e.description = .pynone ∧ Embed.len e = .error PyErr.typeError) := by
  obtain ⟨cs, rfl⟩ := from_dict_ok_shape d e h
  constructor
  · intro ht
    constructor
    · simp [Embed.fromDictBase, ht]
    · simp [Embed.len, Embed.fromDictBase, ht, StrVal.pyLen, except_bind_error]
  · intro hd
    constructor
    · simp [Embed.fromDictBase, hd]
    · cases ht : d.title with
      | none =>
        simp [Embed.len, Embed.fromDictBase, ht, hd, StrVal.pyLen, except_bind_error]
      | some s =>
        simp [Embed.len, Embed.fromDictBase, ht, hd, StrVal.pyLen,
          except_bind_ok, except_bind_error]

/-- Witness for C10 at two concrete documents: one lacking the title key
(description present) and one lacking the description key (title
present). -/
theorem c10_from_dict_len_fails_witness :
    ((Embed.fromDictBase { description := some "d" } ColourSlot.unset).title = .pynone ∧
      Embed.len (Embed.fromDictBase { description := some "d" } ColourSlot.unset)
        = .error PyErr.typeError) ∧
    ((Embed.fromDictBase { title := some "t" } ColourSlot.unset).description = .pynone ∧
      Embed.len (Embed.fromDictBase { title := some "t" } ColourSlot.unset)
        = .error PyErr.typeError) :=
  ⟨(c10_from_dict_len_fails { description := some "d" } _ rfl).1 rfl,
   (c10_from_dict_len_fails { title := some "t" } _ rfl).2 rfl⟩

/-- C3: building with a timezone-naive timestamp stores the same wall
reading with the local offset attached (interpretation in the local
zone), and `to_dict` then emits the instant converted to UTC with the
explicit `+00:00` suffix, whatever the local offset was; when no
timestamp was supplied, no timestamp key is emitted. -/
theorem c3_timestamp_utc (L : Int) (a : CtorArgs) (ops : List BuildOp) (e : Embed)
    (hb : Embed.build L a ops = .ok e) :
    (∀ w, a.timestamp = some ⟨w, none⟩ →
      e._timestamp = some ⟨w, some L⟩ ∧
      (Embed.to_dict e).timestamp = some (toString (w - L) ++ "+00:00")) ∧
    (a.timestamp = none → (Embed.to_dict e).timestamp = none) := by
  obtain ⟨e0, hi, rfl⟩ := build_inv L a ops e hb
  obtain ⟨cs, rfl⟩ := init_ok_shape L a e0 hi
  have hts := (foldl_slots ops (Embed.initBase L a cs)).2.2.2.2.2.1
  constructor
  · intro w hw
    have h1 : (Embed.initBase L a cs)._timestamp = some ⟨w, some L⟩ := by
      simp [Embed.initBase, hw]
    refine ⟨hts.trans h1, ?_⟩
    simp [Embed.to_dict, hts, h1, PyDateTime.isoformat, offsetSuffix]
  · intro hw
    have h1 : (Embed.initBase L a cs)._timestamp = none := by
      simp [Embed.initBase, hw]
    simp [Embed.to_dict, hts, h1]

/-- Witness for C3: local offset 60 seconds, naive wall reading 0 — the
stored value carries offset 60 and the document shows the UTC reading
-60 suffixed `+00:00`. -/
theorem c3_timestamp_utc_witness :
    c3e._timestamp = some ⟨0, some 60⟩ ∧
    (Embed.to_dict c3e).timestamp = some (toString (0 - 60 : Int) ++ "+00:00") :=
  (c3_timestamp_utc 60 { timestamp := some ⟨0, none⟩ } [] c3e rfl).1 0 rfl

/-- C5 (counterexample): a title explicitly set to the empty string does
not appear in `to_dict`'s output — the source's truthiness check drops
falsy strings, contradicting the claim that explicitly set values are
emitted verbatim. -/
theorem c5_empty_title_omitted :
    Embed.build 0 { title := some "" } [] = Except.ok c5e ∧
    c5e.title = .str "" ∧
    (Embed.to_dict c5e).title = none :=
  ⟨rfl, rfl, rfl⟩

/-- C5 (amended): `to_dict` emits `title`, `description`, `url` and
`type` exactly when the stored value is truthy — an explicitly set but
falsy (empty) string is omitted, a non-empty string is emitted
verbatim. -/
theorem c5_truthy_emission (L : Int) (a : CtorArgs) (ops : List BuildOp) (e : Embed)
    (hb : Embed.build L a ops = .ok e) :
    ((a.title = some "" → (Embed.to_dict e).title = none) ∧
      (∀ s, a.title = some s → s ≠ "" → (Embed.to_dict e).title = some s)) ∧
    ((a.description = some "" → (Embed.to_dict e).description = none) ∧
      (∀ s, a.description = some s → s ≠ "" → (Embed.to_dict e).description = some s)) ∧
    ((a.url = some "" → (Embed.to_dict e).url = none) ∧
      (∀ s, a.url = some s → s ≠ "" → (Embed.to_dict e).url = some s)) ∧
    ((a.type = "" → (Embed.to_dict e).type = none) ∧
      (a.type ≠ "" → (Embed.to_dict e).type = some a.type)) := by
  obtain ⟨e0, hi, rfl⟩ := build_inv L a ops e hb
  obtain ⟨cs, rfl⟩ := init_ok_shape L a e0 hi
  have hs := foldl_slots ops (Embed.initBase L a cs)
  refine ⟨⟨?_, ?_⟩, ⟨?_, ?_⟩, ⟨?_, ?_⟩, ⟨?_, ?_⟩⟩
  · intro h
    simp only [Embed.to_dict]
    rw [hs.1]
    simp [Embed.initBase, h, StrVal.emit]
  · intro s h hne
    simp only [Embed.to_dict]
    rw [hs.1]
    simp [Embed.initBase, h, StrVal.emit, hne]
  · intro h
    simp only [Embed.to_dict]
    rw [hs.2.2.2.1]
    simp [Embed.initBase, h, StrVal.emit]
  · intro s h hne
    simp only [Embed.to_dict]
    rw [hs.2.2.2.1]
    simp [Embed.initBase, h, StrVal.emit, hne]
  · intro h
    simp only [Embed.to_dict]
    rw [hs.2.1]
    simp [Embed.initBase, h, StrVal.emit]
  · intro s h hne
    simp only [Embed.to_dict]
    rw [hs.2.1]
    simp [Embed.initBase, h, StrVal.emit, hne]
  · intro h
    simp only [Embed.to_dict]
    rw [hs.2.2.1]
    simp [Embed.initBase, h, StrVal.emit]
  · intro h
    simp only [Embed.to_dict]
    rw [hs.2.2.1]
    simp [Embed.initBase, StrVal.emit, h]

/-- Witness for C5 (amended): a non-empty title is emitted verbatim while
an explicitly empty url is omitted. -/
theorem c5_truthy_emission_witness :
    (Embed.to_dict c5e2).title = some "T" ∧ (Embed.to_dict c5e2).url = none :=
  have h := c5_truthy_emission 0 { title := some "T", url := some "" } [] c5e2 rfl
  ⟨h.1.2 "T" rfl (by decide), h.2.2.1.1 rfl⟩

/-- C6: a field never set is entirely absent from `to_dict`'s output —
text fields left at their defaults, an unsupplied timestamp, colour left
at the `EmptyEmbed` defaults, and each sub-object no fluent call ever
wrote, produce no key at all; `video` and `provider`, which no
constructor argument or setter can write, are always absent for built
embeds.  (`type` is the one key with a non-absent default, `rich`.) -/
theorem c6_absence (L : Int) (a : CtorArgs) (ops : List BuildOp) (e : Embed)
    (hb : Embed.build L a ops = .ok e) :
    (a.title = none → (Embed.to_dict e).title = none) ∧
    (a.description = none → (Embed.to_dict e).description = none) ∧
    (a.url = none → (Embed.to_dict e).url = none) ∧
    (a.timestamp = none → (Embed.to_dict e).timestamp = none) ∧
    (a.colour = .empty → a.color = .empty → (Embed.to_dict e).color = none) ∧
    ((∀ op ∈ ops, op.touchesFooter = false) → (Embed.to_dict e).footer = none) ∧
    ((∀ op ∈ ops, op.touchesImage = false) → (Embed.to_dict e).image = none) ∧
    ((∀ op ∈ ops, op.touchesThumbnail = false) → (Embed.to_dict e).thumbnail = none) ∧
    ((∀ op ∈ ops, op.touchesAuthor = false) → (Embed.to_dict e).author = none) ∧
    ((∀ op ∈ ops, op.touchesFields = false) → (Embed.to_dict e).fields = none) ∧
    (Embed.to_dict e).video = none ∧
    (Embed.to_dict e).provider = none := by
  obtain ⟨e0, hi, rfl⟩ := build_inv L a ops e hb
  have hce := init_colour_empty L a e0
  obtain ⟨cs, rfl⟩ := init_ok_shape L a e0 hi
  have hs := foldl_slots ops (Embed.initBase L a cs)
  refine ⟨?_, ?_, ?_, ?_, ?_, ?_, ?_, ?_, ?_, ?_, ?_, ?_⟩
  · intro h
    simp only [Embed.to_dict]
    rw [hs.1]
    simp [Embed.initBase, h, StrVal.emit]
  · intro h
    simp only [Embed.to_dict]
    rw [hs.2.2.2.1]
    simp [Embed.initBase, h, StrVal.emit]
  · intro h
    simp only [Embed.to_dict]
    rw [hs.2.1]
    simp [Embed.initBase, h, StrVal.emit]
  · intro h
    simp only [Embed.to_dict]
    rw [hs.2.2.2.2.2.1]
    simp [Embed.initBase, h]
  · intro h1 h2
    have hc := hce h1 h2 hi
    simp only [Embed.to_dict]
    rw [hs.2.2.2.2.1, hc]
  · intro h
    have hf := foldl_footer_of ops (Embed.initBase L a cs) h
    simp only [Embed.to_dict]
    rw [hf]
    simp [Embed.initBase]
  · intro h
    have hf := foldl_image_of ops (Embed.initBase L a cs) h
    simp only [Embed.to_dict]
    rw [hf]
    simp [Embed.initBase]
  · intro h
    have hf := foldl_thumbnail_of ops (Embed.initBase L a cs) h
    simp only [Embed.to_dict]
    rw [hf]
    simp [Embed.initBase]
  · intro h
    have hf := foldl_author_of ops (Embed.initBase L a cs) h
    simp only [Embed.to_dict]
    rw [hf]
    simp [Embed.initBase]
  · intro h
    have hf := foldl_fields_of ops (Embed.initBase L a cs) h
    simp only [Embed.to_dict]
    rw [hf]
    simp [Embed.initBase]
  · simp only [Embed.to_dict]
    rw [hs.2.2.2.2.2.2.1]
    simp [Embed.initBase]
  · simp only [Embed.to_dict]
    rw [hs.2.2.2.2.2.2.2]
    simp [Embed.initBase]

/-- Witness for C6: the embed constructed with no options serializes with
every optional key absent (only the defaulted `type` is present). -/
theorem c6_absence_witness :
    (Embed.to_dict emptyBuilt).title = none ∧
    (Embed.to_dict emptyBuilt).color = none ∧
    (Embed.to_dict emptyBuilt).footer = none ∧
    (Embed.to_dict emptyBuilt).fields = none ∧
    (Embed.to_dict emptyBuilt).video = none :=
  have h := c6_absence 0 {} [] emptyBuilt rfl
  ⟨h.1 rfl, h.2.2.2.2.1 rfl rfl, h.2.2.2.2.2.1 (by simp),
   h.2.2.2.2.2.2.2.2.2.1 (by simp), h.2.2.2.2.2.2.2.2.2.2.1⟩

/-- One fluent call preserves the shape invariant that keeps `__len__`
total: no call puts `None` into title or description, and `set_author`
always stores a `name` key. -/
theorem apply_lenOK (e : Embed) (op : BuildOp) (h : lenOK e) :
    lenOK (Embed.apply e op) := by
  obtain ⟨h1, h2, h3⟩ := h
  have hs := apply_slots e op
  refine ⟨by rw [hs.1]; exact h1, by rw [hs.2.2.2.1]; exact h2, ?_⟩
  cases op with
  | author n u i =>
    intro a ha
    have he : (Embed.apply e (.author n u i))._author
        = some ⟨some n, truthyOpt u, truthyOpt i⟩ := rfl
    rw [he] at ha
    injection ha with ha2
    rw [← ha2]
    rfl
  | footer t i => exact h3
  | image u => exact h3
  | thumbnail u => exact h3
  | field n v i => exact h3

/-- Chained form of `apply_lenOK`. -/
theorem foldl_lenOK (ops : List BuildOp) (e : Embed) (h : lenOK e) :
    lenOK (ops.foldl Embed.apply e) := by
  induction ops generalizing e with
  | nil => exact h
  | cons op ops ih =>
    rw [List.foldl_cons]
    exact ih (Embed.apply e op) (apply_lenOK e op h)

/-- The constructor establishes the shape invariant. -/
theorem init_lenOK (L : Int) (a : CtorArgs) (cs : ColourSlot) :
    lenOK (Embed.initBase L a cs) := by
  refine ⟨?_, ?_, ?_⟩
  · cases ht : a.title <;> simp [Embed.initBase, ht]
  · cases hd : a.description <;> simp [Embed.initBase, hd]
  · intro x hx
    simp [Embed.initBase] at hx

/-- On any embed satisfying the shape invariant, `__len__` succeeds and
returns exactly the spec's additive character count. -/
theorem len_eq_spec (e : Embed) (h : lenOK e) :
    Embed.len e = .ok (specCharLen e) := by
  obtain ⟨h1, h2, h3⟩ := h
  obtain ⟨tl, htl, htc⟩ : ∃ tl, StrVal.pyLen e.title = .ok tl ∧ charLen e.title = tl := by
    rcases ht : e.title with _ | _ | s
    · exact ⟨0, rfl, rfl⟩
    · exact absurd ht h1
    · exact ⟨s.length, rfl, rfl⟩
  obtain ⟨dl, hdl, hdc⟩ : ∃ dl, StrVal.pyLen e.description = .ok dl ∧ charLen e.description = dl := by
    rcases hd : e.description with _ | _ | s
    · exact ⟨0, rfl, rfl⟩
    · exact absurd hd h2
    · exact ⟨s.length, rfl, rfl⟩
  unfold Embed.len specCharLen
  rw [htl, except_bind_ok, hdl, except_bind_ok, htc, hdc]
  cases hf : e._footer with
  | none =>
    cases ha : e._author with
    | none => simp
    | some a =>
      obtain ⟨n, hn⟩ := Option.isSome_iff_exists.mp (h3 a ha)
      simp [hn]
  | some f =>
    cases hft : f.text with
    | none =>
      cases ha : e._author with
      | none => simp [hft]
      | some a =>
        obtain ⟨n, hn⟩ := Option.isSome_iff_exists.mp (h3 a ha)
        simp [hft, hn]
    | some s =>
      cases ha : e._author with
      | none => simp [hft]
      | some a =>
        obtain ⟨n, hn⟩ := Option.isSome_iff_exists.mp (h3 a ha)
        simp [hft, hn]

/-- C9: on every embed built from the documented constructor and fluent
setters, `len()` succeeds and equals the additive formula — title plus
description plus field names and values plus footer text plus author
name, absent parts contributing zero. -/
theorem c9_length (L : Int) (a : CtorArgs) (ops : List BuildOp) (e : Embed)
    (hb : Embed.build L a ops = .ok e) :
    Embed.len e = .ok (specCharLen e) := by
  obtain ⟨e0, hi, rfl⟩ := build_inv L a ops e hb
  obtain ⟨cs, rfl⟩ := init_ok_shape L a e0 hi
  exact len_eq_spec _ (foldl_lenOK ops _ (init_lenOK L a cs))

/-- Witness for C9: the spec's worked example
`Embed(title='ab', description='cd').add_field(name='e', value='fgh')`
has length 2+2+1+3 = 8. -/
theorem c9_length_witness : Embed.len c9e = .ok 8 := by
  have h := c9_length 0 { title := some "ab", description := some "cd" }
    [.field "e" "fgh" true] c9e rfl
  rw [h]
  rfl

/-- Re-serializing an embed ingested from `to_dict` output reproduces the
document, provided the original had no timestamp (which `from_dict`
drops) and the colour slot handed to `fromDictBase` re-emits the same
`color` value the original document carried. -/
theorem to_dict_fromDictBase (e : Embed) (ht : e._timestamp = none) (cs : ColourSlot)
    (hcs : (match cs with
            | ColourSlot.col c => if c.truthy then some c.value else none
            | _ => none)
          = (match e._colour with
            | ColourSlot.col c => if c.truthy then some c.value else none
            | _ => none)) :
    Embed.to_dict (Embed.fromDictBase (Embed.to_dict e) cs) = Embed.to_dict e := by
  simp only [Embed.to_dict, Embed.fromDictBase, Doc.mk.injEq]
  refine ⟨emit_rt e.title, emit_rt e.type, emit_rt e.description, emit_rt e.url,
      ?_, hcs, ?_, ?_, ?_, ?_, ?_, ?_, ?_⟩ <;>
    first
      | rw [ht]
      | trivial

/-- Serialize, deserialize, serialize again is the identity on documents
for any embed with no timestamp and only in-range colours. -/
theorem roundtrip_core (e : Embed) (ht : e._timestamp = none) (hc : colourOK e) :
    ∃ e2, Embed.from_dict (Embed.to_dict e) = .ok e2 ∧
      Embed.to_dict e2 = Embed.to_dict e := by
  rcases hcol : e._colour with _ | _ | c
  · have hdc : (Embed.to_dict e).color = none := by simp [Embed.to_dict, hcol]
    refine ⟨_, ?_, to_dict_fromDictBase e ht .unset (by rw [hcol])⟩
    unfold Embed.from_dict
    rw [hdc]
  · have hdc : (Embed.to_dict e).color = none := by simp [Embed.to_dict, hcol]
    refine ⟨_, ?_, to_dict_fromDictBase e ht .unset (by rw [hcol])⟩
    unfold Embed.from_dict
    rw [hdc]
  · by_cases hv : c.value = 0
    · have hdc : (Embed.to_dict e).color = none := by
        simp [Embed.to_dict, hcol, Colour.truthy, hv]
      refine ⟨_, ?_, to_dict_fromDictBase e ht .unset
        (by rw [hcol]; simp [Colour.truthy, hv])⟩
      unfold Embed.from_dict
      rw [hdc]
    · have hrange := hc c hcol
      have hcon : Colour.construct c.value = .ok ⟨c.value⟩ :=
        (construct_ok _ _).mpr ⟨hrange, rfl⟩
      have hdc : (Embed.to_dict e).color = some c.value := by
        simp [Embed.to_dict, hcol, Colour.truthy, hv]
      refine ⟨_, ?_, to_dict_fromDictBase e ht (.col ⟨c.value⟩) (by rw [hcol])⟩
      simp [Embed.from_dict, hdc, hcon, Except.map]

/-- C1 (counterexample): the round-trip claim fails as stated — for the
embed built with a timestamp, `copy()` (that is,
`from_dict(to_dict())`) drops the timestamp, so the copy's `to_dict()`
differs from the original's. -/
theorem c1_roundtrip_counterexample :
    Embed.build 0 { timestamp := some ⟨0, some 0⟩ } [] = Except.ok c1e ∧
    (Embed.to_dict c1e).timestamp = some (toString (0 : Int) ++ "+00:00") ∧
    Embed.copy c1e = Except.ok c1rt ∧
    Embed.to_dict c1rt ≠ Embed.to_dict c1e := by
  refine ⟨rfl, rfl, rfl, ?_⟩
  decide

/-- C1 (amended): for every embed built purely from the documented
constructor and setters with well-formed colour arguments and no
timestamp supplied, `copy()` succeeds and the copy serializes to exactly
the original's document.  (With a timestamp set the round trip loses the
timestamp key, see the counterexample.) -/
theorem c1_roundtrip_amended (L : Int) (a : CtorArgs) (ops : List BuildOp) (e : Embed)
    (hts : a.timestamp = none) (hwf1 : a.colour.wf) (hwf2 : a.color.wf)
    (hb : Embed.build L a ops = .ok e) :
    ∃ e2, Embed.copy e = .ok e2 ∧ Embed.to_dict e2 = Embed.to_dict e := by
  obtain ⟨e0, hi, rfl⟩ := build_inv L a ops e hb
  have hcol0 := init_colour_wf L a e0 hwf1 hwf2 hi
  obtain ⟨cs, hshape⟩ := init_ok_shape L a e0 hi
  subst hshape
  have hs := foldl_slots ops (Embed.initBase L a cs)
  have ht : (ops.foldl Embed.apply (Embed.initBase L a cs))._timestamp = none := by
    rw [hs.2.2.2.2.2.1]
    simp [Embed.initBase, hts]
  have hc : colourOK (ops.foldl Embed.apply (Embed.initBase L a cs)) := by
    intro c hcc
    rw [hs.2.2.2.2.1] at hcc
    exact hcol0 c hcc
  exact roundtrip_core _ ht hc

/-- Witness for C1 (amended): a concrete embed with title, colour 5 and
one field round-trips to the same document. -/
theorem c1_roundtrip_amended_witness :
    ∃ e2, Embed.copy c1we = Except.ok e2 ∧ Embed.to_dict e2 = Embed.to_dict c1we :=
  c1_roundtrip_amended 0 { title := some "Hello", colour := .int 5 }
    [.field "f" "v" true] c1we rfl trivial trivial rfl
